import Mathlib

/-!
Verification of the geofenced attendance tracker's core logic.

This file gives a shallow embedding of the core functions of the
geo-attendance repository — device binding (`src/context/AuthContext.tsx`
and the server user routes), geofence math (`src/utils/geofencing.ts`),
zone resolution and the check-in/out handler (`src/screens/AttendanceScreen.tsx`),
and the report aggregation (`ReportScreen.tsx`) — and proves or refutes the
specification's claims about them.

Conventions of the embedding:
* JavaScript numbers are modelled as real numbers (`ℝ`) for geometry and as
  rationals (`ℚ`) for timestamps in milliseconds and durations in minutes.
* JavaScript string falsiness (`!s` true for `null`/`undefined`/`""`) is
  modelled explicitly where the code relies on it.
* Asynchronous collaborator calls (persistence, the platform device-id API)
  are modelled as explicit inputs carrying their outcome, and a `try/catch`
  around a body is modelled by an explicit outcome argument.
* `Array.prototype.sort` (guaranteed stable by the ECMAScript standard) is
  modelled with `List.mergeSort`, which is proven stable in the library.
-/

/-! ## Device Binding Authority (src/context/AuthContext.tsx, server user routes) -/

/-- User roles, from `type UserRole = 'employee' | 'admin'` in `src/types/index.ts`. -/
inductive UserRole where
  | employee
  | admin
deriving DecidableEq, Repr

/-- The `Profile` record from `src/types/index.ts`: `device_id?: string` is
modelled as `Option String` (absent/null = `none`), and the optional
`device_reset_requested?: boolean` as a `Bool` (the code reads it with
`|| false`, collapsing `undefined` to `false`). -/
structure Profile where
  id : String
  email : String
  full_name : String
  role : UserRole
  device_id : Option String
  device_reset_requested : Bool
deriving DecidableEq, Repr

/-- JavaScript falsiness of the stored device id: `!userProfile.device_id`
is true when the field is `null`/`undefined` or the empty string. -/
def deviceIdUnset : Option String → Bool
  | none => true
  | some s => s.isEmpty

/-- The decision logic of `verifyAndBindDevice` (AuthContext.tsx lines 172–218).

Inputs beyond the profile and the freshly derived device id:
* `bindSuccess` is the outcome of the `updateDeviceId` PATCH call (it
  returns `response.ok`, or `false` when it throws — it never raises);
* `bodyThrows` models the function's own `try/catch`: when the body throws
  (lines 214–217) the catch returns `true`.

Returns the boolean the function returns (`true` = session allowed) together
with the profile as the function leaves it (on a successful first-login bind
the code mutates `userProfile.device_id = currentDeviceId`).  The React state
updates on the block path (`setDeviceBlocked` etc.) are UI bookkeeping and
are not part of the returned value. -/
def verifyAndBindDevice (userProfile : Profile) (currentDeviceId : String)
    (bindSuccess : Bool) (bodyThrows : Bool) : Bool × Profile :=
  if bodyThrows then (true, userProfile)
  else if userProfile.role = .admin then (true, userProfile)
  else if deviceIdUnset userProfile.device_id then
    (true, if bindSuccess then { userProfile with device_id := some currentDeviceId }
           else userProfile)
  else if userProfile.device_id = some currentDeviceId then (true, userProfile)
  else (false, userProfile)

/-- The spec's three-valued decision for the Device Binding Authority. -/
inductive Decision where
  | ALLOW_BIND
  | ALLOW_MATCH
  | BLOCK
deriving DecidableEq, Repr

/-- Decision table written from the spec's words (§4.4 Contract), for
comparison with the code's `verifyAndBindDevice`: admin → `ALLOW_MATCH`;
stored id unset → `ALLOW_BIND`; stored id equal to the current id →
`ALLOW_MATCH`; otherwise `BLOCK`.  "Unset" is read with the same falsiness
as the code (`deviceIdUnset`). -/
def specVerify (user : Profile) (currentDeviceId : String) : Decision :=
  if user.role = .admin then .ALLOW_MATCH
  else if deviceIdUnset user.device_id then .ALLOW_BIND
  else if user.device_id = some currentDeviceId then .ALLOW_MATCH
  else .BLOCK

/-- The `POST /request-device-reset` route (server user routes, part_000):
sets `device_reset_requested := true` on the authenticated user. -/
def requestDeviceReset (user : Profile) : Profile :=
  { user with device_reset_requested := true }

/-- The admin-only `POST /:id/reset-device` route (server user routes,
part_000): clears `device_id` and `device_reset_requested`. -/
def resetDevice (user : Profile) : Profile :=
  { user with device_id := none, device_reset_requested := false }

/-- Platform discriminator for `Platform.OS` as used by `getDeviceId`. -/
inductive PlatformOS where
  | web
  | ios
  | android
deriving DecidableEq, Repr

/-- Environment consumed by `getDeviceId` (AuthContext.tsx lines 35–58):
the platform, availability of `window.localStorage` and of the
`expo-application` module, the stored web id if any, the suffix produced by
`Math.random().toString(36).substring(2, 15)`, the outcomes of the two
platform identifier calls (`.error` = the call threw), and `Date.now()`. -/
structure DeviceEnv where
  os : PlatformOS
  localStorageAvailable : Bool
  storedWebId : Option String
  rand : String
  appAvailable : Bool
  iosIdResult : Except Unit (Option String)
  androidIdResult : Except Unit (Option String)
  now : Nat
deriving Repr

/-- JavaScript `v || dflt` for an optional string `v`: the default is used
when `v` is `null`/`undefined` or empty. -/
def orDefault (v : Option String) (dflt : String) : String :=
  match v with
  | some s => if s.isEmpty then dflt else s
  | none => dflt

/-- The device-identity derivation `getDeviceId` (AuthContext.tsx lines
35–58).  On web it reads or generates-and-stores a local-storage id; on iOS
it uses `getIosIdForVendorAsync`, on other native platforms `getAndroidId`,
each falling back to a time-stamped string when the call returns a falsy
value; when the module is unavailable it returns `native_<now>`; and the
surrounding `try/catch` turns any thrown error from the platform call into
`fallback_<now>`.  The function therefore always returns a string and never
propagates a failure. -/
def getDeviceId (env : DeviceEnv) : String :=
  match env.os with
  | .web =>
    if env.localStorageAvailable then
      match env.storedWebId with
      | some id => if id.isEmpty then "web_" ++ toString env.now ++ "_" ++ env.rand else id
      | none => "web_" ++ toString env.now ++ "_" ++ env.rand
    else "web_" ++ toString env.now
  | .ios =>
    if env.appAvailable then
      match env.iosIdResult with
      | .ok v => orDefault v ("ios_" ++ toString env.now)
      | .error _ => "fallback_" ++ toString env.now
    else "native_" ++ toString env.now
  | .android =>
    if env.appAvailable then
      match env.androidIdResult with
      | .ok v => orDefault v ("android_" ++ toString env.now)
      | .error _ => "fallback_" ++ toString env.now
    else "native_" ++ toString env.now

/-! ## Geo Math (src/utils/geofencing.ts) -/

/-- A latitude/longitude pair, from `interface Coordinates` in
`src/types/index.ts`; JavaScript doubles are modelled as reals. -/
structure Coordinates where
  latitude : ℝ
  longitude : ℝ

/-- `EARTH_RADIUS_METERS = 6371000` from `src/utils/geofencing.ts`. -/
noncomputable def EARTH_RADIUS_METERS : ℝ := 6371000

/-- `toRadians(degrees) = degrees * (Math.PI / 180)`. -/
noncomputable def toRadians (degrees : ℝ) : ℝ := degrees * (Real.pi / 180)

/-- JavaScript `Math.atan2(y, x)`: the argument of the complex number
`x + y·i`, in `(-π, π]`, with `atan2(0, 0) = 0` — exactly `Complex.arg`. -/
noncomputable def atan2 (y x : ℝ) : ℝ := Complex.arg ⟨x, y⟩

/-- The intermediate value `a` of `calculateDistance` (geofencing.ts lines
25–30): `sin²(Δlat/2) + cos(lat1)·cos(lat2)·sin²(Δlon/2)` with all angles
converted to radians. -/
noncomputable def haversineA (point1 point2 : Coordinates) : ℝ :=
  Real.sin (toRadians (point2.latitude - point1.latitude) / 2) *
      Real.sin (toRadians (point2.latitude - point1.latitude) / 2) +
    Real.cos (toRadians point1.latitude) * Real.cos (toRadians point2.latitude) *
      (Real.sin (toRadians (point2.longitude - point1.longitude) / 2) *
        Real.sin (toRadians (point2.longitude - point1.longitude) / 2))

/-- `calculateDistance` (geofencing.ts lines 16–35): the Haversine
great-circle distance `R · 2 · atan2(√a, √(1-a))` in meters. -/
noncomputable def calculateDistance (point1 point2 : Coordinates) : ℝ :=
  EARTH_RADIUS_METERS *
    (2 * atan2 (Real.sqrt (haversineA point1 point2))
               (Real.sqrt (1 - haversineA point1 point2)))

/-- The `Location` record from `src/types/index.ts` (a circular zone). -/
structure Location where
  id : String
  name : String
  latitude : ℝ
  longitude : ℝ
  radius_meters : ℝ
  created_by : String

/-- `NearbyLocation extends Location` with the evaluated distance and
inside/outside classification (`src/types/index.ts`). -/
structure NearbyLocation extends Location where
  distance : ℝ
  isInside : Bool

/-! ## Zone Resolver (src/screens/AttendanceScreen.tsx lines 88–111) -/

/-- The element computation of `calculateNearbyLocations`'s `map`: distance
from the user to the zone center, and `isInside = distance <= radius_meters`. -/
noncomputable def toNearby (userCoords : Coordinates) (loc : Location) : NearbyLocation :=
  let distance := calculateDistance userCoords ⟨loc.latitude, loc.longitude⟩
  ⟨loc, distance, decide (distance ≤ loc.radius_meters)⟩

/-- `calculateNearbyLocations` (AttendanceScreen.tsx lines 88–104): map each
zone to its membership record, then `nearby.sort((a, b) => a.distance -
b.distance)` — a stable ascending sort by distance, modelled by
`List.mergeSort`. -/
noncomputable def calculateNearbyLocations (userCoords : Coordinates)
    (allLocations : List Location) : List NearbyLocation :=
  (allLocations.map (toNearby userCoords)).mergeSort
    (fun a b => decide (a.distance ≤ b.distance))

/-- The auto-selection (AttendanceScreen.tsx lines 106–108):
`nearby.find((loc) => loc.isInside)` on the sorted array, `null` when no
entry matches. -/
noncomputable def autoSelectLocation (userCoords : Coordinates)
    (allLocations : List Location) : Option NearbyLocation :=
  (calculateNearbyLocations userCoords allLocations).find? (fun loc => loc.isInside)

/-! ## Attendance State Machine (src/screens/AttendanceScreen.tsx lines 225–270) -/

/-- `type AttendanceStatus = 'check_in' | 'check_out'` from `src/types/index.ts`. -/
inductive AttendanceStatus where
  | check_in
  | check_out
deriving DecidableEq, Repr

/-- The next-status computation (AttendanceScreen.tsx lines 237–238):
`lastStatus === 'check_in' ? 'check_out' : 'check_in'`. -/
def nextStatus (lastStatus : Option AttendanceStatus) : AttendanceStatus :=
  if lastStatus = some .check_in then .check_out else .check_in

/-- An attendance event as appended by `recordAttendance`
(`AttendanceRecord` in `src/types/index.ts`); `timestamp` is milliseconds
since the epoch (the value of `new Date(t).getTime()`). -/
structure AttendanceRecord where
  user_id : String
  timestamp : ℚ
  status : AttendanceStatus
  latitude : ℝ
  longitude : ℝ

/-- Outcome of the `recordAttendance` append call as observed by
`handleCheckInOut`: it resolves with no error, resolves with an error
object, or throws. -/
inductive AppendOutcome where
  | success
  | failure (msg : String)
  | thrown

/-- What one `handleCheckInOut` invocation produced: the event appended (if
any), the in-memory `lastStatus` after the call, and the alert shown. -/
structure CheckInOutResult where
  event : Option AttendanceRecord
  lastStatusAfter : Option AttendanceStatus
  alert : Option (String × String)

/-- `handleCheckInOut` (AttendanceScreen.tsx lines 225–270).  Guard first:
with no coordinates or no selected zone it alerts and records nothing.  Then
the biometric gate (`authenticated` is the result of
`authenticateWithBiometrics`; on failure the function returns silently —
that helper shows its own alerts).  Then it computes the next status and
appends; on an error result or a thrown append it alerts and leaves
`lastStatus` unchanged; only on success does it advance `lastStatus`. -/
def handleCheckInOut (userId : String) (coordinates : Option Coordinates)
    (selectedLocation : Option NearbyLocation) (lastStatus : Option AttendanceStatus)
    (authenticated : Bool) (append : AppendOutcome) (now : ℚ) : CheckInOutResult :=
  match coordinates, selectedLocation with
  | some coords, some loc =>
    if authenticated = false then ⟨none, lastStatus, none⟩
    else
      let newStatus := nextStatus lastStatus
      match append with
      | .failure msg => ⟨none, lastStatus, some ("Error", msg)⟩
      | .thrown => ⟨none, lastStatus, some ("Error", "Failed to record attendance")⟩
      | .success =>
        ⟨some ⟨userId, now, newStatus, coords.latitude, coords.longitude⟩,
         some newStatus,
         some ("Success",
           (if newStatus = .check_in then "Checked in" else "Checked out") ++
             " at " ++ loc.name ++ "!")⟩
  | _, _ => ⟨none, lastStatus, some ("Error", "You must be inside a location to check in/out")⟩

/-! ## Report Aggregator (ReportScreen, src/unnamed/part_002 lines 60–212) -/

/-- A detail row of the report: the record, its attributed location name,
and — for `check_out` rows only — the computed duration in minutes
(`DetailedRecord` in part_002). -/
structure DetailedRecord where
  record : AttendanceRecord
  locationName : String
  duration : Option ℚ

/-- A per-zone summary row (`LocationTimeSummary` in part_002). -/
structure LocationTimeSummary where
  locationId : String
  locationName : String
  totalMinutes : ℚ
  sessions : Nat

/-- The loop of `findNearestLocation` (part_002 lines 60–80): walk the zone
list keeping the nearest zone that contains the point; `none` for the
accumulator plays the role of `nearest = null, minDistance = Infinity`
(the `distance < Infinity` conjunct is vacuous). -/
noncomputable def findNearestLoop (lat lng : ℝ) :
    List Location → Option (Location × ℝ) → Option (Location × ℝ)
  | [], acc => acc
  | loc :: rest, acc =>
    let d := calculateDistance ⟨lat, lng⟩ ⟨loc.latitude, loc.longitude⟩
    let better := match acc with
      | none => decide (d ≤ loc.radius_meters)
      | some (_, minDistance) => decide (d ≤ loc.radius_meters) && decide (d < minDistance)
    findNearestLoop lat lng rest (if better then some (loc, d) else acc)

/-- `findNearestLocation(lat, lng, locations)` from part_002: the nearest
zone containing the point, or `null` when none contains it. -/
noncomputable def findNearestLocation (lat lng : ℝ) (locations : List Location) :
    Option Location :=
  (findNearestLoop lat lng locations none).map (fun p => p.1)

/-- One update of the `locationTimeMap` (part_002 lines 156–166): JavaScript
`Map` preserves insertion order, modelled as an association list keyed by
the location id; an existing bucket accumulates minutes and sessions, a new
bucket is appended with the name seen at first insertion. -/
def updateBucket (m : List (String × String × ℚ × Nat)) (locationId locationName : String)
    (durationMinutes : ℚ) : List (String × String × ℚ × Nat) :=
  match m with
  | [] => [(locationId, locationName, durationMinutes, 1)]
  | (k, n, minutes, sessions) :: rest =>
    if k = locationId then (k, n, minutes + durationMinutes, sessions + 1) :: rest
    else (k, n, minutes, sessions) :: updateBucket rest locationId locationName durationMinutes

/-- The body of `generateReport`'s scan (part_002 lines 132–186) for the
record at index `i`.  A `check_in` row is pushed to the details without a
duration, and if `records.findIndex((r, idx) => idx > i && r.status ===
'check_out')` finds a later check-out, `(checkOut.timestamp -
checkIn.timestamp) / 60000` minutes and one session are added to the
check-in's location bucket.  A `check_out` row searches backwards for the
closest preceding `check_in` to display a duration in the details. -/
noncomputable def generateReportStep (records : List AttendanceRecord)
    (locations : List Location)
    (acc : List DetailedRecord × List (String × String × ℚ × Nat))
    (ir : Nat × AttendanceRecord) :
    List DetailedRecord × List (String × String × ℚ × Nat) :=
  let (detailed, bucketMap) := acc
  let (i, record) := ir
  let location := findNearestLocation record.latitude record.longitude locations
  let locationName := match location with | some l => l.name | none => "Unknown Location"
  let locationId := match location with | some l => l.id | none => "unknown"
  match record.status with
  | .check_in =>
    let checkOut := records.enum.find?
      (fun p => decide (i < p.1) && decide (p.2.status = .check_out))
    let detailed := detailed ++ [⟨record, locationName, none⟩]
    match checkOut with
    | some (_, co) =>
      let durationMinutes := (co.timestamp - record.timestamp) / (1000 * 60)
      (detailed, updateBucket bucketMap locationId locationName durationMinutes)
    | none => (detailed, bucketMap)
  | .check_out =>
    let duration := ((records.take i).reverse.find?
        (fun r => decide (r.status = .check_in))).map
      (fun ci => (record.timestamp - ci.timestamp) / (1000 * 60))
    (detailed ++ [⟨record, locationName, duration⟩], bucketMap)

/-- The pure core of `generateReport` (part_002 lines 128–206): scan the
records chronologically building the detail rows and the per-location
buckets, convert the buckets to summary rows, total the minutes, and sort
the summaries descending by `totalMinutes` (stable `Array.prototype.sort`,
modelled by `List.mergeSort`).  Returns (details, summaries, totalMinutes). -/
noncomputable def generateReportCore (records : List AttendanceRecord)
    (locations : List Location) :
    List DetailedRecord × List LocationTimeSummary × ℚ :=
  let scanned := records.enum.foldl (generateReportStep records locations) ([], [])
  let summaryArray := scanned.2.map
    (fun b => LocationTimeSummary.mk b.1 b.2.1 b.2.2.1 b.2.2.2)
  let total := summaryArray.foldl (fun t s => t + s.totalMinutes) 0
  (scanned.1,
   summaryArray.mergeSort (fun a b => decide (b.totalMinutes ≤ a.totalMinutes)),
   total)

/-! ## Shared lemmas -/

/-- The boolean `verifyAndBindDevice` returns (in the non-throwing case)
is `true` exactly when the spec's decision table does not say `BLOCK`. -/
theorem verify_fst_eq_spec (p : Profile) (d : String) (bs : Bool) :
    (verifyAndBindDevice p d bs false).fst = decide (specVerify p d ≠ Decision.BLOCK) := by
  unfold verifyAndBindDevice specVerify
  split_ifs <;> simp_all

/-- On the bind path with a successful persistence call,
`verifyAndBindDevice` stores the current id; on every other path it leaves
the stored id unchanged. -/
theorem verify_snd_bind (p : Profile) (d : String) :
    (verifyAndBindDevice p d true false).snd.device_id =
      (if specVerify p d = Decision.ALLOW_BIND then some d else p.device_id) := by
  unfold verifyAndBindDevice specVerify
  split_ifs <;> simp_all

/-- A user the spec's table blocks is not an admin. -/
theorem role_ne_admin_of_block (u : Profile) (d0 : String)
    (h : specVerify u d0 = Decision.BLOCK) : u.role ≠ UserRole.admin := by
  intro hadm
  unfold specVerify at h
  rw [if_pos hadm] at h
  exact Decision.noConfusion h

/-! ## Claims -/

/-- C1: for every user record and freshly computed device identifier, the
device-binding verification implements exactly the spec's decision table —
admin allows regardless of the stored id, an unset stored id takes the bind
decision (treated as allowed; with a successful persistence call the
current id is stored), a matching stored id allows, and a mismatch blocks
(the returned `false` refuses session establishment). -/
theorem claim_C1_device_decision_table (p : Profile) (d : String) (bs : Bool) :
    (verifyAndBindDevice p d bs false).fst = decide (specVerify p d ≠ Decision.BLOCK) ∧
    (verifyAndBindDevice p d true false).snd.device_id =
      (if specVerify p d = Decision.ALLOW_BIND then some d else p.device_id) :=
  ⟨verify_fst_eq_spec p d bs, verify_snd_bind p d⟩

/-- C2 counterexample: with a bound employee (stored id `"D1"`) and a
platform identifier call that throws, `getDeviceId` returns the generated
`fallback_7` identifier, and verification evaluates the normal decision
table on it — producing `BLOCK` (the session is refused), not the
`ALLOW_MATCH` fail-open the claim states. -/
theorem claim_C2_counterexample :
    getDeviceId ⟨.android, false, none, "x", true, .ok none, .error (), 7⟩ = "fallback_7" ∧
    specVerify ⟨"u1", "e@x", "N", .employee, some "D1", false⟩
        (getDeviceId ⟨.android, false, none, "x", true, .ok none, .error (), 7⟩) =
      Decision.BLOCK ∧
    (verifyAndBindDevice ⟨"u1", "e@x", "N", .employee, some "D1", false⟩
        (getDeviceId ⟨.android, false, none, "x", true, .ok none, .error (), 7⟩)
        false false).fst = false ∧
    Decision.BLOCK ≠ Decision.ALLOW_MATCH := by
  refine ⟨rfl, by decide, by decide, by decide⟩

/-- C2 (amended): a failing platform identifier call does not make
device-identity derivation fail — `getDeviceId` catches it and returns the
generated `fallback_<now>` identifier, and verification then applies the
normal decision table to that identifier (so a bound non-admin user with a
different stored id is blocked, not allowed).  The documented fail-open
(return `true`) applies only when the body of `verifyAndBindDevice` itself
throws. -/
theorem claim_C2_fallback_id_then_normal_table (env : DeviceEnv) (p : Profile)
    (d : String) (bs : Bool) (h1 : env.os = PlatformOS.android)
    (h2 : env.appAvailable = true) (h3 : env.androidIdResult = Except.error ()) :
    getDeviceId env = "fallback_" ++ toString env.now ∧
    (verifyAndBindDevice p (getDeviceId env) bs false).fst =
      decide (specVerify p (getDeviceId env) ≠ Decision.BLOCK) ∧
    (verifyAndBindDevice p d bs true).fst = true := by
  refine ⟨?_, verify_fst_eq_spec p (getDeviceId env) bs, rfl⟩
  unfold getDeviceId
  rw [h1, h3]
  simp [h2]

/-- Witness for C2 (amended) at a concrete environment and user. -/
theorem claim_C2_fallback_id_then_normal_table_witness :
    getDeviceId ⟨.android, false, none, "x", true, .ok none, .error (), 7⟩ = "fallback_7" ∧
    (verifyAndBindDevice ⟨"u1", "e@x", "N", .employee, some "D1", false⟩
        (getDeviceId ⟨.android, false, none, "x", true, .ok none, .error (), 7⟩)
        false false).fst =
      decide (specVerify ⟨"u1", "e@x", "N", .employee, some "D1", false⟩
          (getDeviceId ⟨.android, false, none, "x", true, .ok none, .error (), 7⟩) ≠
        Decision.BLOCK) ∧
    (verifyAndBindDevice ⟨"u1", "e@x", "N", .employee, some "D1", false⟩
        "D1" false true).fst = true :=
  claim_C2_fallback_id_then_normal_table
    ⟨.android, false, none, "x", true, .ok none, .error (), 7⟩
    ⟨"u1", "e@x", "N", .employee, some "D1", false⟩ "D1" false rfl rfl rfl

/-- C5: for a user the verification blocks, `requestDeviceReset` sets
`device_reset_requested` (idempotently), the admin-only `resetDevice`
clears both the stored id and the flag, and afterwards verification with
any device identifier takes the bind decision (`ALLOW_BIND`, allowed). -/
theorem claim_C5_reset_flow (u : Profile) (d0 d : String) (bs : Bool)
    (h : specVerify u d0 = Decision.BLOCK) :
    (requestDeviceReset u).device_reset_requested = true ∧
    requestDeviceReset (requestDeviceReset u) = requestDeviceReset u ∧
    (resetDevice (requestDeviceReset u)).device_id = none ∧
    (resetDevice (requestDeviceReset u)).device_reset_requested = false ∧
    specVerify (resetDevice (requestDeviceReset u)) d = Decision.ALLOW_BIND ∧
    (verifyAndBindDevice (resetDevice (requestDeviceReset u)) d bs false).fst = true := by
  have hrole := role_ne_admin_of_block u d0 h
  refine ⟨rfl, rfl, rfl, rfl, ?_, ?_⟩
  · unfold specVerify resetDevice requestDeviceReset
    simp [hrole, deviceIdUnset]
  · unfold verifyAndBindDevice resetDevice requestDeviceReset
    simp [hrole, deviceIdUnset]

/-- Witness for C5: a concrete blocked employee (stored `"D1"`, login from
`"D2"`), with the reset flow evaluated at the new device `"D2"`. -/
theorem claim_C5_reset_flow_witness :
    specVerify ⟨"u1", "e@x", "N", .employee, some "D1", false⟩ "D2" = Decision.BLOCK ∧
    ((requestDeviceReset ⟨"u1", "e@x", "N", .employee, some "D1", false⟩).device_reset_requested
        = true ∧
      requestDeviceReset (requestDeviceReset ⟨"u1", "e@x", "N", .employee, some "D1", false⟩) =
        requestDeviceReset ⟨"u1", "e@x", "N", .employee, some "D1", false⟩ ∧
      (resetDevice (requestDeviceReset ⟨"u1", "e@x", "N", .employee, some "D1", false⟩)).device_id
        = none ∧
      (resetDevice (requestDeviceReset
          ⟨"u1", "e@x", "N", .employee, some "D1", false⟩)).device_reset_requested = false ∧
      specVerify (resetDevice (requestDeviceReset
          ⟨"u1", "e@x", "N", .employee, some "D1", false⟩)) "D2" = Decision.ALLOW_BIND ∧
      (verifyAndBindDevice (resetDevice (requestDeviceReset
          ⟨"u1", "e@x", "N", .employee, some "D1", false⟩)) "D2" false false).fst = true) :=
  ⟨by decide,
    claim_C5_reset_flow ⟨"u1", "e@x", "N", .employee, some "D1", false⟩ "D2" "D2" false (by decide)⟩

/-- C8: the next-status function is total over its domain and returns
`check_in` for `null` and for `check_out`, and `check_out` for `check_in`. -/
theorem claim_C8_next_status :
    nextStatus none = .check_in ∧
    nextStatus (some .check_in) = .check_out ∧
    nextStatus (some .check_out) = .check_in := by
  decide

/-- C10: on a first login (stored device id unset, non-admin), a failed
persistence of the new binding still returns `true` (the session is
allowed) and leaves the profile — in particular its `device_id` —
unchanged, so a subsequent verification takes the bind decision again
(`ALLOW_BIND`, not a block), and a successful retry stores the id. -/
theorem claim_C10_failed_bind_allows_and_retries (p : Profile) (d d' : String) (bs' : Bool)
    (hrole : p.role = UserRole.employee) (hunset : deviceIdUnset p.device_id = true) :
    verifyAndBindDevice p d false false = (true, p) ∧
    (verifyAndBindDevice p d' bs' false).fst = true ∧
    specVerify p d' = Decision.ALLOW_BIND ∧
    (verifyAndBindDevice p d' true false).snd.device_id = some d' := by
  have hadm : p.role ≠ UserRole.admin := by rw [hrole]; intro hc; exact UserRole.noConfusion hc
  refine ⟨?_, ?_, ?_, ?_⟩
  · unfold verifyAndBindDevice
    simp [hadm, hunset]
  · unfold verifyAndBindDevice
    simp [hadm, hunset]
  · unfold specVerify
    simp [hadm, hunset]
  · unfold verifyAndBindDevice
    simp [hadm, hunset]

/-- Witness for C10: a concrete unbound employee, binding to `"D1"` with a
failed persistence call, then retrying with `"D2"`. -/
theorem claim_C10_failed_bind_allows_and_retries_witness :
    verifyAndBindDevice ⟨"u1", "e@x", "N", .employee, none, false⟩ "D1" false false =
        (true, ⟨"u1", "e@x", "N", .employee, none, false⟩) ∧
      (verifyAndBindDevice ⟨"u1", "e@x", "N", .employee, none, false⟩ "D2" false false).fst
        = true ∧
      specVerify ⟨"u1", "e@x", "N", .employee, none, false⟩ "D2" = Decision.ALLOW_BIND ∧
      (verifyAndBindDevice ⟨"u1", "e@x", "N", .employee, none, false⟩ "D2" true
          false).snd.device_id = some "D2" :=
  claim_C10_failed_bind_allows_and_retries ⟨"u1", "e@x", "N", .employee, none, false⟩
    "D1" "D2" false rfl rfl

/-- C6: whenever no zone is selected the check-in/out action is refused
with the user-facing reason and no attendance event is recorded; in
particular an empty zone list makes the auto-selection `none`. -/
theorem claim_C6_no_zone_refusal (userId : String) (coords : Option Coordinates)
    (lastStatus : Option AttendanceStatus) (authenticated : Bool)
    (append : AppendOutcome) (now : ℚ) (p : Coordinates) :
    handleCheckInOut userId coords none lastStatus authenticated append now =
      ⟨none, lastStatus, some ("Error", "You must be inside a location to check in/out")⟩ ∧
    autoSelectLocation p [] = none := by
  constructor
  · cases coords <;> rfl
  · simp [autoSelectLocation, calculateNearbyLocations]

/-- C7: if the attendance append fails — `recordAttendance` resolves with
an error or throws — the handler records no event and leaves the in-memory
`lastStatus` unchanged (it fails atomically, with no retry). -/
theorem claim_C7_append_failure_atomic (userId : String) (coords : Option Coordinates)
    (selected : Option NearbyLocation) (lastStatus : Option AttendanceStatus)
    (authenticated : Bool) (msg : String) (now : ℚ) :
    (handleCheckInOut userId coords selected lastStatus authenticated
        (.failure msg) now).event = none ∧
    (handleCheckInOut userId coords selected lastStatus authenticated
        (.failure msg) now).lastStatusAfter = lastStatus ∧
    (handleCheckInOut userId coords selected lastStatus authenticated
        .thrown now).event = none ∧
    (handleCheckInOut userId coords selected lastStatus authenticated
        .thrown now).lastStatusAfter = lastStatus := by
  rcases coords with _ | c <;> rcases selected with _ | s <;>
    rcases authenticated <;> refine ⟨rfl, rfl, rfl, rfl⟩

/-- The Haversine intermediate `a` is symmetric in its two points. -/
theorem haversineA_comm (p q : Coordinates) : haversineA p q = haversineA q p := by
  unfold haversineA toRadians
  have hlat : (q.latitude - p.latitude) * (Real.pi / 180) / 2 =
      -((p.latitude - q.latitude) * (Real.pi / 180) / 2) := by ring
  have hlon : (q.longitude - p.longitude) * (Real.pi / 180) / 2 =
      -((p.longitude - q.longitude) * (Real.pi / 180) / 2) := by ring
  rw [hlat, hlon]
  simp only [Real.sin_neg]
  ring

/-- The Haversine intermediate `a` vanishes on the diagonal. -/
theorem haversineA_self (a : Coordinates) : haversineA a a = 0 := by
  unfold haversineA toRadians
  simp

/-- `calculateDistance` of a point to itself is zero. -/
theorem calculateDistance_self (a : Coordinates) : calculateDistance a a = 0 := by
  unfold calculateDistance atan2
  rw [haversineA_self]
  have h1 : (⟨Real.sqrt (1 - 0), Real.sqrt 0⟩ : ℂ) = 1 := by
    apply Complex.ext <;> simp
  rw [h1, Complex.arg_one, mul_zero, mul_zero]

/-- C9: the Haversine distance is symmetric, zero on the diagonal, and
non-negative, for all (finite) coordinate inputs — the embedding is a total
function with no error condition. -/
theorem claim_C9_distance_algebra (a b : Coordinates) :
    calculateDistance a b = calculateDistance b a ∧
    calculateDistance a a = 0 ∧
    0 ≤ calculateDistance a b := by
  refine ⟨?_, calculateDistance_self a, ?_⟩
  · unfold calculateDistance
    rw [haversineA_comm]
  · unfold calculateDistance atan2
    apply mul_nonneg
    · unfold EARTH_RADIUS_METERS
      norm_num
    · apply mul_nonneg (by norm_num)
      rw [Complex.arg_nonneg_iff]
      exact Real.sqrt_nonneg _

/-- C4: zone resolution maps each zone to its Haversine distance and the
inclusive `isInside` classification (the `toNearby` image), and the result
is that image sorted non-decreasing by distance with input order preserved
for equal distances (stable: for every distance value the sub-sequence of
entries at that distance is unchanged); auto-selection is the first sorted
entry with `isInside`, and is `none` exactly when no entry is inside. -/
theorem claim_C4_zone_resolution (p : Coordinates) (zones : List Location) :
    (calculateNearbyLocations p zones).Pairwise (fun a b => a.distance ≤ b.distance) ∧
    (calculateNearbyLocations p zones).Perm (zones.map (toNearby p)) ∧
    (∀ d : ℝ, (calculateNearbyLocations p zones).filter (fun m => decide (m.distance = d)) =
      (zones.map (toNearby p)).filter (fun m => decide (m.distance = d))) ∧
    autoSelectLocation p zones =
      (calculateNearbyLocations p zones).find? (fun m => m.isInside) ∧
    (autoSelectLocation p zones = none ↔
      ∀ m ∈ calculateNearbyLocations p zones, m.isInside = false) := by
  have htrans : ∀ a b c : NearbyLocation,
      (fun a b : NearbyLocation => decide (a.distance ≤ b.distance)) a b →
      (fun a b : NearbyLocation => decide (a.distance ≤ b.distance)) b c →
      (fun a b : NearbyLocation => decide (a.distance ≤ b.distance)) a c := by
    intro a b c hab hbc
    simp only [decide_eq_true_eq] at hab hbc ⊢
    exact le_trans hab hbc
  have htotal : ∀ a b : NearbyLocation,
      ((fun a b : NearbyLocation => decide (a.distance ≤ b.distance)) a b ||
        (fun a b : NearbyLocation => decide (a.distance ≤ b.distance)) b a) := by
    intro a b
    simp only [Bool.or_eq_true, decide_eq_true_eq]
    exact le_total a.distance b.distance
  refine ⟨?_, ?_, ?_, rfl, ?_⟩
  · have hs := List.sorted_mergeSort htrans htotal (zones.map (toNearby p))
    exact hs.imp (fun h => by simpa using h)
  · exact List.mergeSort_perm (zones.map (toNearby p)) _
  · intro d
    have hall : ∀ x ∈ (zones.map (toNearby p)).filter (fun m => decide (m.distance = d)),
        x.distance = d := by
      intro x hx
      simpa using List.of_mem_filter hx
    have hpw : ((zones.map (toNearby p)).filter
        (fun m => decide (m.distance = d))).Pairwise
        (fun a b : NearbyLocation => decide (a.distance ≤ b.distance)) := by
      apply List.pairwise_of_forall_mem_list
      intro a ha b hb
      simp only [decide_eq_true_eq]
      rw [hall a ha, hall b hb]
    have hsub := List.sublist_mergeSort htrans htotal hpw
      (List.filter_sublist (zones.map (toNearby p)))
    have hsub2 := hsub.filter (fun m => decide (m.distance = d))
    simp only [List.filter_filter, Bool.and_self] at hsub2
    have hperm := (List.mergeSort_perm (zones.map (toNearby p))
      (fun a b => decide (a.distance ≤ b.distance))).filter
      (fun m => decide (m.distance = d))
    exact (hsub2.eq_of_length hperm.length_eq.symm).symm
  · simp [autoSelectLocation, List.find?_eq_none]

/-- C3 counterexample: for `[check_in@09:00, check_in@09:10,
check_out@09:20]` (timestamps 0, 600000, 1200000 ms) the scan pairs BOTH
check-ins with the single check-out — `findIndex` never consumes a matched
check-out — so the bucket receives 20 + 10 = 30 minutes over 2 sessions,
not the 20 minutes / 1 session the claim requires (the second check-in does
contribute a duration and a session). -/
theorem claim_C3_counterexample :
    (generateReportCore
      [⟨"u", 0, .check_in, 0, 0⟩, ⟨"u", 600000, .check_in, 0, 0⟩,
       ⟨"u", 1200000, .check_out, 0, 0⟩] []).2.1 =
      [⟨"unknown", "Unknown Location", 30, 2⟩] ∧
    ¬ (generateReportCore
      [⟨"u", 0, .check_in, 0, 0⟩, ⟨"u", 600000, .check_in, 0, 0⟩,
       ⟨"u", 1200000, .check_out, 0, 0⟩] []).2.1 =
      [⟨"unknown", "Unknown Location", 20, 1⟩] := by
  have h1 : (generateReportCore
      [⟨"u", 0, .check_in, 0, 0⟩, ⟨"u", 600000, .check_in, 0, 0⟩,
       ⟨"u", 1200000, .check_out, 0, 0⟩] []).2.1 =
      [⟨"unknown", "Unknown Location", 30, 2⟩] := by
    simp [generateReportCore, generateReportStep, findNearestLocation, findNearestLoop,
      updateBucket, List.enum, List.enumFrom]
    norm_num
  refine ⟨h1, ?_⟩
  rw [h1]
  intro he
  have h2 := List.head_eq_of_cons_eq he
  have h3 := congrArg LocationTimeSummary.totalMinutes h2
  norm_num at h3

/-- C3 (amended): for `[check_in@09:00, check_in@09:10, check_out@09:20]`
the first check-in pairs with the check-out for 20 minutes, and — because
the scan does not consume a matched check-out — the second check-in also
pairs with the same check-out for 10 more minutes and a second session;
the summary bucket totals 30 minutes over 2 sessions, the overall total is
30 minutes, and in the detail rows neither check-in carries a duration
(only the check-out row does, showing 10 minutes from the nearest
preceding check-in). -/
theorem claim_C3_double_pairing :
    (generateReportCore
      [⟨"u", 0, .check_in, 0, 0⟩, ⟨"u", 600000, .check_in, 0, 0⟩,
       ⟨"u", 1200000, .check_out, 0, 0⟩] []).2.1 =
      [⟨"unknown", "Unknown Location", 30, 2⟩] ∧
    (generateReportCore
      [⟨"u", 0, .check_in, 0, 0⟩, ⟨"u", 600000, .check_in, 0, 0⟩,
       ⟨"u", 1200000, .check_out, 0, 0⟩] []).2.2 = 30 ∧
    ((generateReportCore
      [⟨"u", 0, .check_in, 0, 0⟩, ⟨"u", 600000, .check_in, 0, 0⟩,
       ⟨"u", 1200000, .check_out, 0, 0⟩] []).1).map (fun r => r.duration) =
      [none, none, some 10] := by
  refine ⟨?_, ?_, ?_⟩ <;>
  · simp [generateReportCore, generateReportStep, findNearestLocation, findNearestLoop,
      updateBucket, List.enum, List.enumFrom]
    norm_num
